import Mathlib

/-!
Shallow embedding of the real-time room/channel core of the
discord-activity-starter repository, and verification of the frozen
claims about it.

Server side (rooms module, `src/unnamed/part_012` and the message handler
of `src/server/server.js`): the `rooms` registry is a map from instance id
to a `Room`; a `Room` owns a participant set (a JS `Set` of sockets,
insertion ordered, identity-deduplicated), an opaque `state` object, and a
broadcast routine.  JS object mutation of a room stored in the map is
modelled by writing the updated room back at its key; the mutable
`socket.userId` / `socket.instanceId` fields are modelled as association
maps keyed by socket id inside `ServerState`.

Client side (websocket module of `src/unnamed/part_005`): module-level
variables `wsInstance`, `wsChannels`, `reconnectAttempts`,
`connectionState` and the (handle-discarding) `setTimeout` calls of
`attemptReconnect` become the fields of `ClientState`; each event handler
of the source becomes a state-transition function.  `Math.random()` is an
explicit rational argument `r` with `0 ≤ r < 1`.

Game registry (`src/unnamed/part_019`): `registerGame` over a list of
game classes whose static properties may be absent or falsy
(`Option String`, falsy = absent or empty string).
-/

namespace DA

/-! ### Association-list primitives (JS `Map` / plain-object lookup) -/

def alookup {α β : Type} [DecidableEq α] : List (α × β) → α → Option β
  | [], _ => none
  | (k, v) :: rest, key => if k = key then some v else alookup rest key

def aset {α β : Type} [DecidableEq α] : List (α × β) → α → β → List (α × β)
  | [], key, v => [(key, v)]
  | (k, w) :: rest, key, v =>
      if k = key then (key, v) :: rest else (k, w) :: aset rest key v

def adel {α β : Type} [DecidableEq α] : List (α × β) → α → List (α × β)
  | [], _ => []
  | (k, w) :: rest, key =>
      if k = key then adel rest key else (k, w) :: adel rest key

/-! ### Server-side sockets and messages -/

/-- A server-side WebSocket connection: identity plus transport readyState
(0 = CONNECTING, 1 = OPEN, 2 = CLOSING, 3 = CLOSED). -/
structure WSocket where
  id : Nat
  readyState : Nat
deriving DecidableEq, Repr

/-- The server-emitted messages that the rooms module constructs
(`user_joined`, `user_left`, `state_sync`), plus a raw-string case
mirroring the `typeof message === 'string'` branch of `broadcast`. -/
inductive SMsg where
  | userJoined (userId : String) (participantCount : Nat)
  | userLeft (userId : String) (participantCount : Nat)
  | stateSync (state : List (String × String))
  | raw (s : String)
deriving DecidableEq, Repr

/-- JSON rendering of a flat string-to-string object (the opaque room
state blob). -/
def serializeObj (fields : List (String × String)) : String :=
  "\x7b" ++ String.intercalate ","
    (fields.map (fun kv => "\"" ++ kv.1 ++ "\":\"" ++ kv.2 ++ "\"")) ++ "\x7d"

/-- `JSON.stringify` of a server message (a string is passed through
unchanged, mirroring `typeof message === 'string' ? message :
JSON.stringify(message)`). -/
def serializeSMsg : SMsg → String
  | .userJoined uid n =>
      "\x7b\"type\":\"user_joined\",\"userId\":\"" ++ uid ++
        "\",\"participantCount\":" ++ toString n ++ "\x7d"
  | .userLeft uid n =>
      "\x7b\"type\":\"user_left\",\"userId\":\"" ++ uid ++
        "\",\"participantCount\":" ++ toString n ++ "\x7d"
  | .stateSync st =>
      "\x7b\"type\":\"state_sync\",\"state\":" ++ serializeObj st ++ "\x7d"
  | .raw s => s

/-- `Room.broadcast(message, exceptSocket)`: serialize the message once,
then send that one string to every participant that is not the excluded
socket and whose `readyState === 1`; everything else is skipped.  The
result is the list of performed `participant.send(messageStr)` calls, in
participant-set iteration order. -/
def broadcastSends (participants : List WSocket) (message : SMsg)
    (exceptSocket : Option WSocket) : List (WSocket × String) :=
  let messageStr := serializeSMsg message
  (participants.filter
      (fun p => some p != exceptSocket && p.readyState == 1)).map
    (fun p => (p, messageStr))

/-! ### Room and the room registry -/

/-- `class Room`: instance id, participant set (JS `Set`: insertion
ordered, deduplicated), and the opaque `state` object (`{}` on
construction). -/
structure Room where
  instanceId : String
  participants : List WSocket
  state : List (String × String)
deriving DecidableEq, Repr

/-- `new Room(instanceId)`: empty participant set, empty state object. -/
def Room.create (iid : String) : Room := ⟨iid, [], []⟩

/-- JS `Set.add`: append unless already present. -/
def addSet (ps : List WSocket) (s : WSocket) : List WSocket :=
  if s ∈ ps then ps else ps ++ [s]

/-- Observable side effects of the server handlers. -/
inductive Effect where
  | sent (sockId : Nat) (msg : String)
  | onMessageInvoked (sockId : Nat)
  | logged (line : String)
deriving DecidableEq, Repr

/-- `Room.addParticipant(socket, userId)`: add to the participant set,
run `onJoin` (base behavior: send a `state_sync` of the current state to
the joining socket), then broadcast `user_joined` with the new count to
everyone except the joiner.  The mutation of `socket.userId` /
`socket.instanceId` is recorded at the `ServerState` level by the caller. -/
def Room.addParticipant (r : Room) (sock : WSocket) (userId : String) :
    Room × List Effect :=
  let ps := addSet r.participants sock
  let r' : Room := { r with participants := ps }
  (r',
    Effect.sent sock.id (serializeSMsg (SMsg.stateSync r'.state)) ::
      (broadcastSends ps (SMsg.userJoined userId ps.length) (some sock)).map
        (fun pm => Effect.sent pm.1.id pm.2))

/-- `Room.removeParticipant(socket)`: if the socket is a participant,
delete it, run `onLeave` (base: no-op), broadcast `user_left` with the
updated count to the remaining participants, and report whether the room
is now empty; otherwise report `false` and do nothing. -/
def Room.removeParticipant (r : Room) (sock : WSocket) (userId : String) :
    Room × Bool × List Effect :=
  if sock ∈ r.participants then
    let ps := r.participants.erase sock
    let r' : Room := { r with participants := ps }
    (r', ps.isEmpty,
      (broadcastSends ps (SMsg.userLeft userId ps.length) none).map
        (fun pm => Effect.sent pm.1.id pm.2))
  else (r, false, [])

/-- The module state of the rooms module: the `rooms` map plus the
mutable `socket.instanceId` / `socket.userId` fields, keyed by socket id. -/
structure ServerState where
  rooms : List (String × Room)
  sockInst : List (Nat × String)
  sockUser : List (Nat × String)
deriving DecidableEq, Repr

/-- `getOrCreateRoom(instanceId, gameType, roomInstance)`: a supplied
instance is installed directly; else an existing room is returned
unchanged; else a fresh base `Room` is constructed and stored.  (The
`gameType` parameter is unused by the source function.) -/
def getOrCreateRoom (st : ServerState) (iid : String)
    (roomInstance : Option Room) : ServerState × Room :=
  match roomInstance with
  | some r => ({ st with rooms := aset st.rooms iid r }, r)
  | none =>
    match alookup st.rooms iid with
    | some r => (st, r)
    | none =>
      let r := Room.create iid
      ({ st with rooms := aset st.rooms iid r }, r)

/-- A join as performed by the server's `join_room` handler on the plain
(lobby) path: `getOrCreateRoom` followed by `room.addParticipant`, which
also sets `socket.instanceId` and `socket.userId`. -/
def joinStep (st : ServerState) (sock : WSocket) (iid userId : String) :
    ServerState × List Effect :=
  let p := getOrCreateRoom st iid none
  let q := Room.addParticipant p.2 sock userId
  ({ p.1 with
      rooms := aset p.1.rooms iid q.1,
      sockInst := aset p.1.sockInst sock.id iid,
      sockUser := aset p.1.sockUser sock.id userId }, q.2)

/-- `leaveRoom(socket)`: the source guard is `if (!instanceId ||
!rooms.has(instanceId)) return false` — JS falsiness, so an unset
`socket.instanceId` and an empty-string one both early-return `false`
without removing anything; likewise when no room is registered under the
id.  Otherwise remove the participant, and when the room became empty
delete it from the registry and return `true`. -/
def leaveRoom (st : ServerState) (sock : WSocket) :
    ServerState × Bool × List Effect :=
  match alookup st.sockInst sock.id with
  | none => (st, false, [])
  | some iid =>
    if iid = "" then (st, false, [])
    else
      match alookup st.rooms iid with
      | none => (st, false, [])
      | some room =>
        let uid := (alookup st.sockUser sock.id).getD "undefined"
        let q := Room.removeParticipant room sock uid
        if q.2.1 then ({ st with rooms := adel st.rooms iid }, true, q.2.2)
        else ({ st with rooms := aset st.rooms iid q.1 }, false, q.2.2)

/-- Registry states reachable by any interleaving of joins
(`getOrCreateRoom` + `addParticipant`) and leaves (`leaveRoom`) from the
empty initial module state. -/
inductive Reachable : ServerState → Prop where
  | init : Reachable ⟨[], [], []⟩
  | join (st : ServerState) (sock : WSocket) (iid uid : String) :
      Reachable st → Reachable (joinStep st sock iid uid).1
  | leave (st : ServerState) (sock : WSocket) :
      Reachable st → Reachable (leaveRoom st sock).1

/-! ### The server's non-join message branch -/

/-- An inbound client message as seen by the server's connection handler:
either a `join_room` request or anything else (publish etc.). -/
inductive CMsg where
  | joinRoom (instanceId userId gameType : String)
  | other (type : String)
deriving DecidableEq, Repr

/-- The `else` branches of the server's message handler for a message
whose `type` is not `join_room`: when `ws.instanceId` is set, call
`getOrCreateRoom(ws.instanceId)` (which creates a fresh room when none is
registered) and delegate to `room.onMessage(ws, data)` — the `room` value
returned is always an object, so the `unknown room` warning branch of the
source is unreachable; when `ws.instanceId` is unset, log and drop. -/
def handleNonJoin (st : ServerState) (sock : WSocket) (_m : CMsg) :
    ServerState × List Effect :=
  match alookup st.sockInst sock.id with
  | some iid =>
    let p := getOrCreateRoom st iid none
    (p.1, [Effect.onMessageInvoked sock.id])
  | none =>
    (st, [Effect.logged "Message received from socket without instanceId"])

/-! ### Game registry (`registerGame`) -/

/-- A game class as seen by the registry: its static properties `id`,
`name`, `description`, each possibly absent.  JS falsiness of a string
property means absent or the empty string. -/
structure GameClass where
  id : Option String
  name : Option String
  description : Option String
deriving DecidableEq, Repr

/-- JS falsiness for an optional string property. -/
def falsy : Option String → Bool
  | none => true
  | some s => s == ""

/-- Outcome of a `registerGame` call. -/
inductive RegOutcome where
  | threw (prop : String)
  | warnedDuplicate
  | registered
deriving DecidableEq, Repr

/-- `registerGame(gameClass)`: throw on the first missing/falsy required
static property (in order `id`, `name`, `description`); otherwise warn
and skip when a game with the same `id` is already registered; otherwise
push the class onto the registered-games list.  The returned list is the
value of the module-level `registeredGames` array after the call. -/
def registerGame (reg : List GameClass) (g : GameClass) :
    List GameClass × RegOutcome :=
  if falsy g.id then (reg, .threw "id")
  else if falsy g.name then (reg, .threw "name")
  else if falsy g.description then (reg, .threw "description")
  else if reg.any (fun r => r.id == g.id) then (reg, .warnedDuplicate)
  else (reg ++ [g], .registered)

/-- The class `getGameInstance` resolves for a game id: the first
registered class whose `id` matches. -/
def resolveGame (reg : List GameClass) (gameId : String) : Option GameClass :=
  reg.find? (fun g => g.id == some gameId)

/-! ### Client-side connection manager (websocket module) -/

/-- `CONNECTION_STATES`. -/
inductive ConnState where
  | connecting
  | connected
  | disconnected
  | failed
deriving DecidableEq, Repr

/-- A subscriber callback handle: its identity plus whether invoking it
throws. -/
structure CB where
  id : Nat
  throws : Bool
deriving DecidableEq, Repr

/-- A client `WebSocketChannel`: name plus the `eventHandlers` map from
event name to the (insertion-ordered, deduplicated) set of callbacks. -/
structure Channel where
  name : String
  eventHandlers : List (String × List CB)
deriving DecidableEq, Repr

/-- The client-side WebSocket object: just its transport readyState
(0 = CONNECTING, 1 = OPEN, 2 = CLOSING, 3 = CLOSED). -/
structure CSocket where
  readyState : Nat
deriving DecidableEq, Repr

/-- The module-level state of the client websocket module: `wsInstance`,
`wsChannels`, `reconnectAttempts`, `connectionState`, the delays of the
reconnect timers currently pending (their `setTimeout` handles are
discarded by the source), and the frames sent so far. -/
structure ClientState where
  wsInstance : Option CSocket
  wsChannels : List (String × Channel)
  reconnectAttempts : Nat
  connectionState : ConnState
  pendingTimers : List ℚ
  sentFrames : List String
deriving DecidableEq, Repr

def MAX_RECONNECT_ATTEMPTS : Nat := 10

def RECONNECT_BASE_DELAY : ℚ := 1000

/-- `RECONNECT_BASE_DELAY * Math.pow(1.5, reconnectAttempts) * (0.9 +
Math.random() * 0.2)`, with the random sample `r` made explicit. -/
def reconnectDelay (n : Nat) (r : ℚ) : ℚ :=
  RECONNECT_BASE_DELAY * (3 / 2) ^ n * (9 / 10 + r * (2 / 10))

/-- `attemptReconnect()`: when the attempt counter has reached
`MAX_RECONNECT_ATTEMPTS`, give up and report `FAILED` without scheduling
anything; otherwise compute the jittered backoff delay from the current
counter, schedule the reconnect timer (its handle is discarded), and
increment the counter. -/
def attemptReconnect (s : ClientState) (r : ℚ) : ClientState :=
  if MAX_RECONNECT_ATTEMPTS ≤ s.reconnectAttempts then
    { s with connectionState := .failed }
  else
    { s with
        pendingTimers :=
          s.pendingTimers ++ [reconnectDelay s.reconnectAttempts r],
        reconnectAttempts := s.reconnectAttempts + 1 }

/-- The tail of `getWebSocketInstance` past the open-singleton check:
`notifyStateChange(CONNECTING)` and `new WebSocket(url)`. -/
def connectFresh (s : ClientState) : ClientState :=
  { s with connectionState := .connecting, wsInstance := some ⟨0⟩ }

/-- `getWebSocketInstance()`: return the existing instance when it is
open, otherwise create a fresh connecting socket. -/
def getWebSocketInstance (s : ClientState) : ClientState :=
  match s.wsInstance with
  | some w => if w.readyState = 1 then s else connectFresh s
  | none => connectFresh s

/-- The `JSON.stringify({ type: 'subscribe', channel: channelId })` frame. -/
def subscribeFrame (channelId : String) : String :=
  "\x7b\"type\":\"subscribe\",\"channel\":\"" ++ channelId ++ "\"\x7d"

/-- `wsInstance.onopen`: fires on the connecting socket; reports
`CONNECTED`, resets the attempt counter to 0, and re-sends the subscribe
frame of every channel registered in `wsChannels`, in map order. -/
def handleOpen (s : ClientState) : ClientState :=
  match s.wsInstance with
  | some w =>
    if w.readyState = 0 then
      { s with
          wsInstance := some ⟨1⟩,
          connectionState := .connected,
          reconnectAttempts := 0,
          sentFrames :=
            s.sentFrames ++ s.wsChannels.map (fun nc => subscribeFrame nc.1) }
    else s
  | none => s

/-- `wsInstance.onclose`: fires on a not-yet-closed socket; reports
`DISCONNECTED`, and when the close code is not 1000 (non-clean) calls
`attemptReconnect`. -/
def handleClose (s : ClientState) (code : Nat) (r : ℚ) : ClientState :=
  match s.wsInstance with
  | some w =>
    if w.readyState ≠ 3 then
      let s1 : ClientState :=
        { s with wsInstance := some ⟨3⟩, connectionState := .disconnected }
      if code ≠ 1000 then attemptReconnect s1 r else s1
    else s
  | none => s

/-- `wsInstance.onerror`: reports `FAILED`; schedules nothing. -/
def handleError (s : ClientState) : ClientState :=
  { s with connectionState := .failed }

/-- A pending reconnect timer firing: the timer is consumed; when the
current instance is not open, close it (ignoring errors) and call
`getWebSocketInstance()`; when it is open, do nothing. -/
def timerFire (s : ClientState) : ClientState :=
  match s.pendingTimers with
  | [] => s
  | _ :: rest =>
    let s1 : ClientState := { s with pendingTimers := rest }
    match s1.wsInstance with
    | some w =>
      if w.readyState ≠ 1 then
        getWebSocketInstance { s1 with wsInstance := some ⟨3⟩ }
      else s1
    | none => getWebSocketInstance s1

/-- `closeWebSocketConnection()`: only when an instance exists and its
readyState is not CLOSED, close it with code 1000, null the instance and
clear the channel map.  No timer is touched (the source keeps no handle). -/
def closeWebSocketConnection (s : ClientState) : ClientState :=
  match s.wsInstance with
  | some w =>
    if w.readyState ≠ 3 then
      { s with wsInstance := none, wsChannels := [] }
    else s
  | none => s

/-- `reconnectWebSocket()`: when the instance is open, close it cleanly
and null it; then `getWebSocketInstance()`. -/
def reconnectWebSocket (s : ClientState) : ClientState :=
  let s1 : ClientState :=
    match s.wsInstance with
    | some w => if w.readyState = 1 then { s with wsInstance := none } else s
    | none => s
  getWebSocketInstance s1

/-- The events the runtime delivers without any application call: socket
open/close/error and a pending reconnect timer firing. -/
inductive AutoEvent where
  | opened
  | closed (code : Nat) (r : ℚ)
  | errored
  | timer
deriving DecidableEq, Repr

def stepAuto (s : ClientState) : AutoEvent → ClientState
  | .opened => handleOpen s
  | .closed code r => handleClose s code r
  | .errored => handleError s
  | .timer => timerFire s

/-- The socket is gone or closed (no open and no in-flight connection). -/
def socketDown (s : ClientState) : Bool :=
  match s.wsInstance with
  | none => true
  | some w => w.readyState == 3

/-! ### Client-side dispatcher -/

/-- Invoking one subscriber callback with the payload: returns the
payload it received, or the exception it threw. -/
def cbInvoke (cb : CB) (data : String) : Except String String :=
  if cb.throws then Except.error "callback error" else Except.ok data

/-- The `forEach` body of `dispatchEvent`: invoke each callback in order
inside its own try/catch, recording (callback id, payload it was invoked
with, whether its exception was caught and logged); a caught exception
does not stop the iteration. -/
def runHandlers (cbs : List CB) (data : String) :
    List (Nat × String × Bool) :=
  match cbs with
  | [] => []
  | cb :: rest =>
    (match cbInvoke cb data with
      | Except.ok d => (cb.id, d, false)
      | Except.error _ => (cb.id, data, true)) :: runHandlers rest data

/-- `WebSocketChannel.dispatchEvent(eventName, data)`: nothing happens
when no handler set exists for the event; otherwise every registered
callback is run. -/
def dispatchEvent (ch : Channel) (eventName : String) (data : String) :
    List (Nat × String × Bool) :=
  match alookup ch.eventHandlers eventName with
  | none => []
  | some cbs => runHandlers cbs data

/-- An inbound frame as parsed by `wsInstance.onmessage`. -/
inductive InMsg where
  | publish (channel event data : String)
  | legacy (channel event data : String)
  | system (m : String)
deriving DecidableEq, Repr

/-- The `onmessage` dispatcher: for a publish (or legacy `message`)
frame, look up the named channel in `wsChannels`; when absent the frame
is dropped silently; when present, dispatch to its subscribers.  The
returned list records the callback invocations performed. -/
def handleMessage (s : ClientState) (m : InMsg) :
    ClientState × List (Nat × String × Bool) :=
  match m with
  | .publish ch ev data =>
    match alookup s.wsChannels ch with
    | some channel => (s, dispatchEvent channel ev data)
    | none => (s, [])
  | .legacy ch ev data =>
    match alookup s.wsChannels ch with
    | some channel => (s, dispatchEvent channel ev data)
    | none => (s, [])
  | .system _ => (s, [])

/-! ### Concrete instances used to exercise the definitions -/

/-- The registry invariant of the rooms module: every room present in the
registry has a strictly positive participant count. -/
def RegInv (st : ServerState) : Prop :=
  ∀ iid room, alookup st.rooms iid = some room → 0 < room.participants.length

def demoSock : WSocket := ⟨1, 1⟩

def demoSt0 : ServerState := ⟨[], [], []⟩

def demoSt1 : ServerState := (joinStep demoSt0 demoSock "s1" "alice").1

def demoRoom1 : Room := ⟨"s1", [demoSock], []⟩

def demoSockE : WSocket := ⟨5, 1⟩

/-- A state in which socket 5 joined under the empty-string session id:
its `instanceId` field is `""`, which is falsy in the source's
`leaveRoom` guard. -/
def demoStE : ServerState := (joinStep demoSt0 demoSockE "" "eve").1

def demoA : WSocket := ⟨1, 1⟩

def demoB : WSocket := ⟨2, 1⟩

def demoC : WSocket := ⟨3, 3⟩

def demoPs : List WSocket := [demoA, demoB, demoC]

def demoMsg : SMsg := SMsg.raw "hello"

def c7State : ServerState := ⟨[], [(7, "s1")], [(7, "bob")]⟩

def c7Sock : WSocket := ⟨7, 1⟩

def c3SchedState : ClientState := ⟨some ⟨3⟩, [], 2, .disconnected, [], []⟩

def c3OpenState : ClientState := ⟨some ⟨0⟩, [], 5, .connecting, [], []⟩

def c4State : ClientState := ⟨some ⟨3⟩, [], 10, .failed, [], []⟩

def c4Evts : List AutoEvent := [.closed 1006 (1 / 2), .timer, .opened, .errored]

def demoChan : Channel :=
  ⟨"room-1", [("dot_update", [⟨1, false⟩, ⟨2, true⟩, ⟨3, false⟩])]⟩

def c5State : ClientState :=
  ⟨some ⟨0⟩, [("room-1", demoChan)], 3, .connecting, [], []⟩

def c6State : ClientState :=
  ⟨some ⟨1⟩, [("room-1", demoChan)], 0, .connected, [], []⟩

def c8s0 : ClientState := ⟨none, [], 0, .disconnected, [], []⟩

/-- The client state after connecting, opening, and then suffering a
non-clean close (code 1006): one reconnect timer is pending. -/
def c8s3 : ClientState :=
  handleClose (handleOpen (getWebSocketInstance c8s0)) 1006 (1 / 2)

def demoReg : List GameClass := [⟨some "dotgame", some "DotGame", some "A dot game"⟩]

def demoDup : GameClass := ⟨some "dotgame", some "DotGame2", none⟩

def c9Good : GameClass := ⟨some "dotgame", some "DotGameBis", some "Another dot game"⟩

def c10Bad : GameClass := ⟨none, some "NoId", some "Class with no id"⟩

/-! ## Lemmas about the association-list primitives -/

theorem alookup_aset_self {α β : Type} [DecidableEq α]
    (l : List (α × β)) (k : α) (v : β) : alookup (aset l k v) k = some v := by
  induction l with
  | nil => simp [aset, alookup]
  | cons hd tl ih =>
    obtain ⟨k0, w⟩ := hd
    by_cases h : k0 = k
    · subst h
      simp [aset, alookup]
    · simp [aset, alookup, h, ih]

theorem alookup_aset_ne {α β : Type} [DecidableEq α]
    (l : List (α × β)) (k k' : α) (v : β) (h : k ≠ k') :
    alookup (aset l k v) k' = alookup l k' := by
  induction l with
  | nil => simp [aset, alookup, h]
  | cons hd tl ih =>
    obtain ⟨k0, w⟩ := hd
    by_cases h0 : k0 = k
    · subst h0
      simp [aset, alookup, h]
    · simp [aset, alookup, h0, ih]

theorem alookup_adel_self {α β : Type} [DecidableEq α]
    (l : List (α × β)) (k : α) : alookup (adel l k) k = none := by
  induction l with
  | nil => simp [adel, alookup]
  | cons hd tl ih =>
    obtain ⟨k0, w⟩ := hd
    by_cases h : k0 = k
    · simp [adel, h, ih]
    · simp [adel, alookup, h, ih]

theorem alookup_adel_ne {α β : Type} [DecidableEq α]
    (l : List (α × β)) (k k' : α) (h : k ≠ k') :
    alookup (adel l k) k' = alookup l k' := by
  induction l with
  | nil => simp [adel]
  | cons hd tl ih =>
    obtain ⟨k0, w⟩ := hd
    by_cases h0 : k0 = k
    · subst h0
      have : ¬ k0 = k' := h
      simp [adel, alookup, this, ih]
    · simp [adel, alookup, h0, ih]

theorem addSet_length_pos (ps : List WSocket) (s : WSocket) :
    0 < (addSet ps s).length := by
  unfold addSet
  split
  · exact List.length_pos_of_mem (by assumption)
  · simp

/-! ## The room-registry invariant -/

theorem removeParticipant_pos (r : Room) (sock : WSocket) (uid : String)
    (hf : (Room.removeParticipant r sock uid).2.1 = false)
    (hr : 0 < r.participants.length) :
    0 < (Room.removeParticipant r sock uid).1.participants.length := by
  unfold Room.removeParticipant at hf ⊢
  by_cases hmem : sock ∈ r.participants
  · simp only [if_pos hmem] at hf ⊢
    simp only [List.isEmpty_eq_false_iff_exists_mem] at hf
    obtain ⟨x, hx⟩ := hf
    exact List.length_pos_of_mem hx
  · simp only [if_neg hmem]
    exact hr

theorem regInv_joinStep (st : ServerState) (sock : WSocket) (iid uid : String)
    (h : RegInv st) : RegInv (joinStep st sock iid uid).1 := by
  intro iid' room' hlook
  rcases hst : alookup st.rooms iid with _ | r
  · simp only [joinStep, getOrCreateRoom, Room.addParticipant, hst] at hlook
    by_cases hiid : iid = iid'
    · subst hiid
      rw [alookup_aset_self] at hlook
      cases hlook
      simpa using addSet_length_pos (Room.create iid).participants sock
    · rw [alookup_aset_ne _ _ _ _ hiid, alookup_aset_ne _ _ _ _ hiid] at hlook
      exact h _ _ hlook
  · simp only [joinStep, getOrCreateRoom, Room.addParticipant, hst] at hlook
    by_cases hiid : iid = iid'
    · subst hiid
      rw [alookup_aset_self] at hlook
      cases hlook
      simpa using addSet_length_pos r.participants sock
    · rw [alookup_aset_ne _ _ _ _ hiid] at hlook
      exact h _ _ hlook

theorem regInv_leaveRoom (st : ServerState) (sock : WSocket)
    (h : RegInv st) : RegInv (leaveRoom st sock).1 := by
  intro iid' room' hlook
  rcases h1 : alookup st.sockInst sock.id with _ | iid
  · simp only [leaveRoom, h1] at hlook
    exact h _ _ hlook
  · by_cases hemp : iid = ""
    · simp only [leaveRoom, h1, if_pos hemp] at hlook
      exact h _ _ hlook
    · rcases h2 : alookup st.rooms iid with _ | room
      · simp only [leaveRoom, h1, if_neg hemp, h2] at hlook
        exact h _ _ hlook
      · rcases hq : (Room.removeParticipant room sock
            ((alookup st.sockUser sock.id).getD "undefined")).2.1 with _ | _
        · simp only [leaveRoom, h1, if_neg hemp, h2, hq, Bool.false_eq_true,
            if_false] at hlook
          by_cases hiid : iid = iid'
          · subst hiid
            rw [alookup_aset_self] at hlook
            cases hlook
            exact removeParticipant_pos _ _ _ hq (h _ _ h2)
          · rw [alookup_aset_ne _ _ _ _ hiid] at hlook
            exact h _ _ hlook
        · simp only [leaveRoom, h1, if_neg hemp, h2, hq, if_true] at hlook
          by_cases hiid : iid = iid'
          · subst hiid
            rw [alookup_adel_self] at hlook
            cases hlook
          · rw [alookup_adel_ne _ _ _ hiid] at hlook
            exact h _ _ hlook

/-- C1: for every reachable state of the server room registry (any
interleaving of joins, a join being `getOrCreateRoom` followed by
`addParticipant`, and leaves via `leaveRoom`), a room present in the
registry has participant count greater than zero (and a room is only
"present" by being in the registry, so presence iff positive count);
`leaveRoom` on a socket whose stored `instanceId` is falsy (unset or the
empty string) removes nothing and returns `false` — so "removing the
last participant" presupposes a truthy id — and when `leaveRoom` does
remove the last participant (truthy id naming a registered room whose
participant set is exactly the leaving socket) it deletes the room from
the registry and returns `true`; a subsequent join for the same session
id then yields a fresh room whose state is the empty object. -/
theorem c1_room_registry_invariant :
    (∀ st, Reachable st → RegInv st) ∧
    (∀ (st : ServerState) (sock : WSocket),
        (alookup st.sockInst sock.id = none ∨
          alookup st.sockInst sock.id = some "") →
        leaveRoom st sock = (st, false, [])) ∧
    (∀ (st : ServerState) (sock : WSocket) (iid : String) (room : Room),
        alookup st.sockInst sock.id = some iid →
        iid ≠ "" →
        alookup st.rooms iid = some room →
        room.participants = [sock] →
        (leaveRoom st sock).2.1 = true ∧
          alookup (leaveRoom st sock).1.rooms iid = none) ∧
    (∀ (st : ServerState) (sock : WSocket) (iid uid : String),
        alookup st.rooms iid = none →
        alookup (joinStep st sock iid uid).1.rooms iid =
          some { instanceId := iid, participants := [sock], state := [] }) := by
  refine ⟨?_, ?_, ?_, ?_⟩
  · intro st h
    induction h with
    | init => intro iid room hlook; simp [alookup] at hlook
    | join st sock iid uid _ ih => exact regInv_joinStep st sock iid uid ih
    | leave st sock _ ih => exact regInv_leaveRoom st sock ih
  · rintro st sock (h | h) <;> simp [leaveRoom, h]
  · intro st sock iid room h1 hemp h2 h3
    have hmem : sock ∈ room.participants := by rw [h3]; exact List.mem_singleton_self _
    have herase : room.participants.erase sock = [] := by rw [h3]; simp
    simp only [leaveRoom, h1, if_neg hemp, h2, Room.removeParticipant,
      if_pos hmem, herase, List.isEmpty_nil, if_true, true_and]
    exact alookup_adel_self _ _
  · intro st sock iid uid h
    simp only [joinStep, getOrCreateRoom, Room.addParticipant, h]
    rw [alookup_aset_self]
    simp [Room.create, addSet]

/-- Witness for C1 at concrete one-join traces: a normal leave of the
last participant under "s1", a falsy-id leave attempt (the socket joined
under the empty-string id and `leaveRoom` is a `false`-returning no-op),
and a fresh rejoin. -/
theorem c1_room_registry_witness :
    0 < demoRoom1.participants.length ∧
    leaveRoom demoStE demoSockE = (demoStE, false, []) ∧
    ((leaveRoom demoSt1 demoSock).2.1 = true ∧
      alookup (leaveRoom demoSt1 demoSock).1.rooms "s1" = none) ∧
    alookup (joinStep demoSt0 demoSock "s1" "alice").1.rooms "s1" =
      some { instanceId := "s1", participants := [demoSock], state := [] } := by
  refine ⟨c1_room_registry_invariant.1 demoSt1
      (Reachable.join demoSt0 demoSock "s1" "alice" Reachable.init)
      "s1" demoRoom1 (by decide),
    c1_room_registry_invariant.2.1 demoStE demoSockE (Or.inr (by decide)),
    c1_room_registry_invariant.2.2.1 demoSt1 demoSock "s1" demoRoom1
      (by decide) (by decide) (by decide) (by decide),
    c1_room_registry_invariant.2.2.2 demoSt0 demoSock "s1" "alice" (by decide)⟩

/-- C2: `broadcast(m, exceptSocket)` serializes `m` once and a pair
(connection, sent string) occurs in the performed sends exactly when the
connection is a participant distinct from the excluded socket whose
readyState is open (1), and the sent string is that single serialization;
in particular the excluded socket never receives, and every non-open
participant is skipped. -/
theorem c2_broadcast_delivery :
    ∀ (ps : List WSocket) (m : SMsg) (e : Option WSocket) (p : WSocket) (s : String),
      (p, s) ∈ broadcastSends ps m e ↔
        (p ∈ ps ∧ some p ≠ e ∧ p.readyState = 1 ∧ s = serializeSMsg m) := by
  intro ps m e p s
  simp only [broadcastSends, List.mem_map, List.mem_filter, Bool.and_eq_true,
    bne_iff_ne, beq_iff_eq, Prod.mk.injEq]
  constructor
  · rintro ⟨q, ⟨hq, hne, hrs⟩, hqp, hs⟩
    subst hqp
    exact ⟨hq, hne, hrs, hs.symm⟩
  · rintro ⟨hp, hne, hrs, hs⟩
    exact ⟨p, ⟨hp, hne, hrs⟩, rfl, hs.symm⟩

/-- Witness for C2: in a room with an excluded open socket, another open
socket and a closed socket, the other open socket receives the single
serialization. -/
theorem c2_broadcast_witness :
    (demoB, serializeSMsg demoMsg) ∈ broadcastSends demoPs demoMsg (some demoA) :=
  (c2_broadcast_delivery demoPs demoMsg (some demoA) demoB
      (serializeSMsg demoMsg)).mpr ⟨by decide, by decide, by decide, rfl⟩

/-- C3: the delay scheduled before reconnection attempt n (the 0-based
count of consecutive failed attempts since the last successful open)
equals baseDelay * growth^n * (0.9 + r*0.2) with the random sample r in
[0,1), hence lies within baseDelay * growth^n * [0.9, 1.1] for
baseDelay = 1000 and growth = 1.5; and the attempt counter is reset to 0
on every successful open. -/
theorem c3_reconnect_backoff :
    (∀ (n : Nat) (r : ℚ), 0 ≤ r → r < 1 →
        (9 / 10) * (RECONNECT_BASE_DELAY * (3 / 2) ^ n) ≤ reconnectDelay n r ∧
          reconnectDelay n r ≤ (11 / 10) * (RECONNECT_BASE_DELAY * (3 / 2) ^ n)) ∧
    (∀ (s : ClientState) (r : ℚ),
        s.reconnectAttempts < MAX_RECONNECT_ATTEMPTS →
        (attemptReconnect s r).pendingTimers =
          s.pendingTimers ++ [reconnectDelay s.reconnectAttempts r]) ∧
    (∀ s : ClientState, (∃ w, s.wsInstance = some w ∧ w.readyState = 0) →
        (handleOpen s).reconnectAttempts = 0) := by
  refine ⟨?_, ?_, ?_⟩
  · intro n r h0 h1
    have hp : (0 : ℚ) < (3 / 2) ^ n := by positivity
    unfold reconnectDelay RECONNECT_BASE_DELAY
    constructor <;>
      nlinarith [mul_nonneg hp.le h0, mul_le_mul_of_nonneg_left h1.le hp.le]
  · intro s r h
    unfold attemptReconnect
    rw [if_neg (by omega)]
  · rintro s ⟨w, hw, hr⟩
    simp [handleOpen, hw, hr]

/-- Witness for C3 at n = 1, r = 1/2, and concrete client states. -/
theorem c3_backoff_witness :
    ((9 / 10) * (RECONNECT_BASE_DELAY * (3 / 2) ^ 1) ≤ reconnectDelay 1 (1 / 2) ∧
      reconnectDelay 1 (1 / 2) ≤ (11 / 10) * (RECONNECT_BASE_DELAY * (3 / 2) ^ 1)) ∧
    (attemptReconnect c3SchedState (1 / 2)).pendingTimers =
      c3SchedState.pendingTimers ++ [reconnectDelay c3SchedState.reconnectAttempts (1 / 2)] ∧
    (handleOpen c3OpenState).reconnectAttempts = 0 :=
  ⟨c3_reconnect_backoff.1 1 (1 / 2) (by norm_num) (by norm_num),
    c3_reconnect_backoff.2.1 c3SchedState (1 / 2) (by decide),
    c3_reconnect_backoff.2.2 c3OpenState ⟨⟨0⟩, rfl, rfl⟩⟩

theorem stepAuto_exhausted (s : ClientState) (e : AutoEvent)
    (hd : socketDown s = true) (ht : s.pendingTimers = [])
    (_hm : MAX_RECONNECT_ATTEMPTS ≤ s.reconnectAttempts) :
    socketDown (stepAuto s e) = true ∧ (stepAuto s e).pendingTimers = [] ∧
      (stepAuto s e).reconnectAttempts = s.reconnectAttempts := by
  cases e with
  | opened =>
    rcases hw : s.wsInstance with _ | w
    · simp [stepAuto, handleOpen, hw, hd, ht]
    · have h3 : w.readyState = 3 := by simpa [socketDown, hw] using hd
      simp [stepAuto, handleOpen, hw, h3, hd, ht, socketDown]
  | closed code r =>
    rcases hw : s.wsInstance with _ | w
    · simp [stepAuto, handleClose, hw, hd, ht]
    · have h3 : w.readyState = 3 := by simpa [socketDown, hw] using hd
      simp [stepAuto, handleClose, hw, h3, hd, ht, socketDown]
  | errored =>
    refine ⟨?_, ?_, rfl⟩
    · simpa [stepAuto, handleError, socketDown] using hd
    · simpa [stepAuto, handleError] using ht
  | timer =>
    simp [stepAuto, timerFire, ht, hd]

theorem foldAuto_exhausted (evts : List AutoEvent) (s : ClientState)
    (hd : socketDown s = true) (ht : s.pendingTimers = [])
    (hm : MAX_RECONNECT_ATTEMPTS ≤ s.reconnectAttempts) :
    socketDown (evts.foldl stepAuto s) = true ∧
      (evts.foldl stepAuto s).pendingTimers = [] ∧
      (evts.foldl stepAuto s).reconnectAttempts = s.reconnectAttempts := by
  induction evts generalizing s with
  | nil => exact ⟨hd, ht, rfl⟩
  | cons e rest ih =>
    obtain ⟨hd', ht', ha'⟩ := stepAuto_exhausted s e hd ht hm
    have := ih (stepAuto s e) hd' ht' (by omega)
    simpa [ha'] using this

/-- C4: once the reconnect-attempt counter has reached the configured
maximum (10), `attemptReconnect` reports the Failed state and schedules
nothing; from the exhausted configuration (counter at the maximum, no
pending timer, socket closed or gone) no sequence of automatic events
(open/close/error/timer) ever schedules a reconnect or revives the
socket; and recovery happens through the explicit external
`reconnectWebSocket` trigger, whose successful open resets the attempt
counter to 0. -/
theorem c4_failed_terminal :
    (∀ (s : ClientState) (r : ℚ),
        MAX_RECONNECT_ATTEMPTS ≤ s.reconnectAttempts →
        attemptReconnect s r = { s with connectionState := .failed }) ∧
    (∀ (s : ClientState) (evts : List AutoEvent),
        socketDown s = true → s.pendingTimers = [] →
        MAX_RECONNECT_ATTEMPTS ≤ s.reconnectAttempts →
        socketDown (evts.foldl stepAuto s) = true ∧
          (evts.foldl stepAuto s).pendingTimers = [] ∧
          (evts.foldl stepAuto s).reconnectAttempts = s.reconnectAttempts) ∧
    (∀ s : ClientState, socketDown s = true →
        (handleOpen (reconnectWebSocket s)).reconnectAttempts = 0 ∧
          (handleOpen (reconnectWebSocket s)).connectionState = .connected) := by
  refine ⟨?_, ?_, ?_⟩
  · intro s r h
    unfold attemptReconnect
    rw [if_pos h]
  · intro s evts hd ht hm
    exact foldAuto_exhausted evts s hd ht hm
  · intro s hd
    rcases hw : s.wsInstance with _ | w
    · simp [reconnectWebSocket, getWebSocketInstance, connectFresh, handleOpen, hw]
    · have h3 : w.readyState = 3 := by simpa [socketDown, hw] using hd
      simp [reconnectWebSocket, getWebSocketInstance, connectFresh, handleOpen, hw, h3]

/-- Witness for C4 at the concrete exhausted state with a close, a timer
tick, an open and an error delivered afterwards. -/
theorem c4_failed_witness :
    attemptReconnect c4State (1 / 2) = { c4State with connectionState := .failed } ∧
    (socketDown (c4Evts.foldl stepAuto c4State) = true ∧
      (c4Evts.foldl stepAuto c4State).pendingTimers = [] ∧
      (c4Evts.foldl stepAuto c4State).reconnectAttempts = c4State.reconnectAttempts) ∧
    (handleOpen (reconnectWebSocket c4State)).reconnectAttempts = 0 :=
  ⟨c4_failed_terminal.1 c4State (1 / 2) (by decide),
    c4_failed_terminal.2.1 c4State c4Evts (by decide) (by decide) (by decide),
    (c4_failed_terminal.2.2 c4State (by decide)).1⟩

/-- C5: on every successful open every channel registered in the channel
map re-sends its subscribe frame, in map order, without application
intervention; and the channel map (hence every channel object and its
per-event subscriber sets) is untouched by close events, by
`attemptReconnect`, by a reconnect timer firing and by
`getWebSocketInstance`, so all subscriptions registered before a
connection drop are re-issued after the reconnect. -/
theorem c5_resubscribe_on_open :
    (∀ (s : ClientState) (w : CSocket),
        s.wsInstance = some w → w.readyState = 0 →
        (handleOpen s).sentFrames =
          s.sentFrames ++ s.wsChannels.map (fun nc => subscribeFrame nc.1) ∧
          (handleOpen s).wsChannels = s.wsChannels) ∧
    (∀ (s : ClientState) (code : Nat) (r : ℚ),
        (handleClose s code r).wsChannels = s.wsChannels) ∧
    (∀ (s : ClientState) (r : ℚ),
        (attemptReconnect s r).wsChannels = s.wsChannels) ∧
    (∀ s : ClientState, (timerFire s).wsChannels = s.wsChannels) ∧
    (∀ s : ClientState, (getWebSocketInstance s).wsChannels = s.wsChannels) := by
  refine ⟨?_, ?_, ?_, ?_, ?_⟩
  · intro s w hw hr
    simp [handleOpen, hw, hr]
  · intro s code r
    rcases hw : s.wsInstance with _ | w
    · simp [handleClose, hw]
    · by_cases h3 : w.readyState = 3
      · simp [handleClose, hw, h3]
      · by_cases hc : code = 1000
        · simp [handleClose, hw, h3, hc]
        · simp [handleClose, hw, h3, hc, attemptReconnect]
          split <;> rfl
  · intro s r
    unfold attemptReconnect
    split <;> rfl
  · intro s
    rcases ht : s.pendingTimers with _ | ⟨d, rest⟩
    · simp [timerFire, ht]
    · rcases hw : s.wsInstance with _ | w
      · simp [timerFire, ht, hw, getWebSocketInstance, connectFresh]
      · by_cases h1 : w.readyState = 1 <;>
          simp [timerFire, ht, hw, h1, getWebSocketInstance, connectFresh]
  · intro s
    rcases hw : s.wsInstance with _ | w
    · simp [getWebSocketInstance, hw, connectFresh]
    · by_cases h1 : w.readyState = 1 <;>
        simp [getWebSocketInstance, hw, h1, connectFresh]

/-- Witness for C5 at a concrete connecting state with one registered
channel carrying one subscriber set. -/
theorem c5_resubscribe_witness :
    (handleOpen c5State).sentFrames =
      c5State.sentFrames ++ c5State.wsChannels.map (fun nc => subscribeFrame nc.1) ∧
    (handleOpen c5State).wsChannels = c5State.wsChannels ∧
    (handleClose c5State 1006 (1 / 2)).wsChannels = c5State.wsChannels :=
  ⟨(c5_resubscribe_on_open.1 c5State ⟨0⟩ rfl rfl).1,
    (c5_resubscribe_on_open.1 c5State ⟨0⟩ rfl rfl).2,
    c5_resubscribe_on_open.2.1 c5State 1006 (1 / 2)⟩

theorem runHandlers_all (cbs : List CB) (data : String) :
    runHandlers cbs data = cbs.map (fun cb => (cb.id, data, cb.throws)) := by
  induction cbs with
  | nil => rfl
  | cons cb rest ih =>
    rcases hcb : cb.throws with _ | _ <;>
      simp [runHandlers, cbInvoke, hcb, ih]

/-- C6: an inbound publish frame naming a channel that is not registered
locally is dropped with no invocation and no surfaced error; when the
channel exists, every callback registered for the frame's event is
invoked, in order, with the frame's payload, a throwing callback is
caught (and logged) at the dispatch boundary, and it does not prevent any
remaining callback from being invoked. -/
theorem c6_dispatch_isolation :
    (∀ (s : ClientState) (ch ev data : String),
        alookup s.wsChannels ch = none →
        handleMessage s (InMsg.publish ch ev data) = (s, [])) ∧
    (∀ (s : ClientState) (ch : String) (channel : Channel) (ev data : String)
        (cbs : List CB),
        alookup s.wsChannels ch = some channel →
        alookup channel.eventHandlers ev = some cbs →
        (handleMessage s (InMsg.publish ch ev data)).2 =
          cbs.map (fun cb => (cb.id, data, cb.throws)) ∧
          (handleMessage s (InMsg.publish ch ev data)).1 = s) := by
  refine ⟨?_, ?_⟩
  · intro s ch ev data h
    simp [handleMessage, h]
  · intro s ch channel ev data cbs h1 h2
    simp [handleMessage, h1, dispatchEvent, h2, runHandlers_all]

/-- Witness for C6: a channel with subscribers 1, 2, 3 where subscriber 2
throws; all three are invoked with the payload and the exception of 2 is
caught. -/
theorem c6_dispatch_witness :
    (handleMessage ⟨some ⟨1⟩, [], 0, .connected, [], []⟩
        (InMsg.publish "room-1" "dot_update" "p")) =
      (⟨some ⟨1⟩, [], 0, .connected, [], []⟩, []) ∧
    (handleMessage c6State (InMsg.publish "room-1" "dot_update" "p")).2 =
      [(1, "p", false), (2, "p", true), (3, "p", false)] :=
  ⟨c6_dispatch_isolation.1 ⟨some ⟨1⟩, [], 0, .connected, [], []⟩
      "room-1" "dot_update" "p" (by decide),
    (c6_dispatch_isolation.2 c6State "room-1" demoChan "dot_update" "p"
        [⟨1, false⟩, ⟨2, true⟩, ⟨3, false⟩] (by decide) (by decide)).1⟩

/-- C7: evaluation of the server's non-join branch at the failing input —
a connection whose stored instanceId ("s1") has no room in the registry.
The claim says the message is logged and dropped with no handler run and
the registry unchanged; the code instead installs a fresh base room for
"s1" via `getOrCreateRoom` and invokes `room.onMessage` on it.  (Only a
connection with no instanceId at all is logged and dropped.) -/
theorem c7_unknown_room_behavior :
    c7State.rooms = [] ∧
    (handleNonJoin c7State c7Sock (CMsg.other "publish")).1.rooms =
      [("s1", Room.create "s1")] ∧
    (handleNonJoin c7State c7Sock (CMsg.other "publish")).2 =
      [Effect.onMessageInvoked 7] ∧
    handleNonJoin ⟨[], [], []⟩ ⟨9, 1⟩ (CMsg.other "publish") =
      (⟨[], [], []⟩,
        [Effect.logged "Message received from socket without instanceId"]) := by
  refine ⟨rfl, ?_, rfl, rfl⟩
  decide

/-- C8: evaluation of the reconnect-timer machinery at the failing trace.
After a non-clean close schedules a reconnect timer, the explicit clean
disconnect `closeWebSocketConnection` never touches the pending timers
(the source discards the setTimeout handle), and in the concrete trace it
is a complete no-op because the socket already reports CLOSED; the stale
timer then fires and opens a brand-new connection after the intentional
teardown, contradicting the claim that a pending reconnect timer is
canceled or rendered inert. -/
theorem c8_stray_reconnect :
    (∀ s : ClientState,
        (closeWebSocketConnection s).pendingTimers = s.pendingTimers) ∧
    c8s3.pendingTimers = [reconnectDelay 0 (1 / 2)] ∧
    closeWebSocketConnection c8s3 = c8s3 ∧
    (timerFire (closeWebSocketConnection c8s3)).wsInstance = some ⟨0⟩ ∧
    (timerFire (closeWebSocketConnection c8s3)).connectionState = .connecting := by
  have h3 : c8s3 =
      ⟨some ⟨3⟩, [], 1, .disconnected, [reconnectDelay 0 (1 / 2)], []⟩ := rfl
  refine ⟨?_, by rw [h3], by rw [h3]; exact rfl, by rw [h3]; exact rfl,
    by rw [h3]; exact rfl⟩
  intro s
  rcases hw : s.wsInstance with _ | w
  · simp [closeWebSocketConnection, hw]
  · by_cases hr : w.readyState = 3 <;> simp [closeWebSocketConnection, hw, hr]

/-- C9 counterexample: a game class whose id duplicates a registered id
but whose description is missing makes `registerGame` throw (validation
runs before the duplicate check), refuting the claim that every
duplicate-id registration is a warning-only no-op that does not throw. -/
theorem c9_duplicate_counterexample :
    (∃ g ∈ demoReg, g.id = demoDup.id) ∧
    (registerGame demoReg demoDup).2 = RegOutcome.threw "description" := by
  refine ⟨⟨⟨some "dotgame", some "DotGame", some "A dot game"⟩, by decide, rfl⟩, ?_⟩
  decide

/-- C9 (amended): for every game class G with truthy id, name and
description whose id equals the id of an already-registered game class,
`registerGame(G)` is a no-op with a warning: it does not throw, and the
registered-games list — hence the class the registry resolves for that
id — is unchanged. -/
theorem c9_duplicate_registration :
    ∀ (reg : List GameClass) (g : GameClass),
      falsy g.id = false → falsy g.name = false → falsy g.description = false →
      reg.any (fun r => r.id == g.id) = true →
      registerGame reg g = (reg, RegOutcome.warnedDuplicate) ∧
        (∀ x : String, resolveGame (registerGame reg g).1 x = resolveGame reg x) := by
  intro reg g h1 h2 h3 h4
  have hreg : registerGame reg g = (reg, RegOutcome.warnedDuplicate) := by
    unfold registerGame
    rw [h1, h2, h3, h4]
    rfl
  exact ⟨hreg, fun x => by rw [hreg]⟩

/-- Witness for C9 (amended) at a concrete duplicate registration. -/
theorem c9_duplicate_witness :
    registerGame demoReg c9Good = (demoReg, RegOutcome.warnedDuplicate) :=
  (c9_duplicate_registration demoReg c9Good rfl rfl rfl (by decide)).1

/-- C10: `registerGame` with any missing or falsy required static
property (id, name or description) throws and leaves the
registered-games list unchanged. -/
theorem c10_malformed_registration :
    ∀ (reg : List GameClass) (g : GameClass),
      (falsy g.id || falsy g.name || falsy g.description) = true →
      (registerGame reg g).1 = reg ∧
        ((registerGame reg g).2 = RegOutcome.threw "id" ∨
          (registerGame reg g).2 = RegOutcome.threw "name" ∨
          (registerGame reg g).2 = RegOutcome.threw "description") := by
  intro reg g h
  unfold registerGame
  rcases h1 : falsy g.id with _ | _
  · rcases h2 : falsy g.name with _ | _
    · rcases h3 : falsy g.description with _ | _
      · rw [h1, h2, h3] at h
        simp at h
      · simp [h1, h2, h3]
    · simp [h1, h2]
  · simp [h1]

/-- Witness for C10 at a concrete class with a missing id. -/
theorem c10_malformed_witness :
    (registerGame demoReg c10Bad).1 = demoReg ∧
      ((registerGame demoReg c10Bad).2 = RegOutcome.threw "id" ∨
        (registerGame demoReg c10Bad).2 = RegOutcome.threw "name" ∨
        (registerGame demoReg c10Bad).2 = RegOutcome.threw "description") :=
  c10_malformed_registration demoReg c10Bad (by decide)

end DA
